import Mathlib

/-!
Shallow embedding of the authenticated API client of `frontend/lib/api.js`:
the error classifier (`handleApiError`), the token refresher (`refreshToken`),
the authenticated request gateway (`apiRequest`), `login` and `logout`, and the
header-merge performed by the gateway's `makeRequest` closure.

Modelling conventions:
* `localStorage` is an association list of string keys to string values
  (`Store`); `getItem` returns `none` for a missing key (JS `null`).
* A JSON response body is a record of the optional fields the client reads
  (`JsonBody`); an HTTP response is a status plus `Option JsonBody`, where
  `none` means the body is not parseable JSON (so `response.json()` rejects).
* A JS async function that can reject is modelled with `Except Unit`.
* JS truthiness on the strings the code tests is captured by `jsTruthy`
  (null/undefined and the empty string are falsy); `a || b` on an optional
  string is `jsOr`; interpolating a possibly-null value into a template
  string is `jsTemplate`.
* Side effects are made explicit: the number of assignments to
  `window.location.href` is returned as a `redirects` counter, and the number
  of network calls issued as a counter or as the list of access tokens the
  requests were built with.
-/

/-- The client-side credential store (`localStorage`): string keys to string
values. -/
abbrev Store := List (String × String)

/-- `localStorage.getItem`: the first binding of the key, `none` if absent. -/
def getItem : Store → String → Option String
  | [], _ => none
  | (k0, v) :: rest, k => if k0 = k then some v else getItem rest k

/-- `localStorage.setItem`: replace the first binding of the key, or append. -/
def setItem : Store → String → String → Store
  | [], k, v => [(k, v)]
  | (k0, v0) :: rest, k, v =>
      if k0 = k then (k0, v) :: rest else (k0, v0) :: setItem rest k v

/-- `localStorage.removeItem`: drop every binding of the key. -/
def removeItem : Store → String → Store
  | [], _ => []
  | (k0, v0) :: rest, k =>
      if k0 = k then removeItem rest k else (k0, v0) :: removeItem rest k

/-- The JSON fields of a response body that `api.js` reads. Each is optional:
`none` models the field being absent (JS `undefined`). -/
structure JsonBody where
  detail : Option String := none
  retry_after : Option Nat := none
  retry_after_human : Option String := none
  errors : Option (List (String × List String)) := none
  requires_2fa : Option Bool := none
  access_token : Option String := none
  refresh_token : Option String := none
deriving DecidableEq

/-- An HTTP response: a status code and, when the body is parseable JSON, the
parsed body. `body = none` means `await response.json()` rejects. -/
structure Response where
  status : Nat
  body : Option JsonBody
deriving DecidableEq

/-- `Response.ok` of the fetch API: status in the range 200-299. -/
def Response.ok (r : Response) : Bool :=
  decide (200 ≤ r.status) && decide (r.status ≤ 299)

/-- JS truthiness of a string-or-null value: `null`/`undefined` and `""` are
falsy, every other string truthy. -/
def jsTruthy : Option String → Bool
  | none => false
  | some s => !(s == "")

/-- JS `a || b` where `a` is a string field that may be absent: the fallback
is taken when the field is absent or the empty string (both falsy). -/
def jsOr (a : Option String) (b : String) : String :=
  match a with
  | none => b
  | some s => if s = "" then b else s

/-- Interpolating a `localStorage.getItem` result into a template string:
JS renders `null` as the text "null". -/
def jsTemplate : Option String → String
  | none => "null"
  | some s => s

/-- Storing a possibly-absent JSON field with `localStorage.setItem`: JS
coerces `undefined` to the text "undefined". -/
def jsString : Option String → String
  | none => "undefined"
  | some s => s

/-- The classified error produced by `handleApiError`, one constructor per
return-object shape of the three branches (status 429, status 423, other). -/
inductive ApiErrorResult where
  | rateLimited (message : Option String) (retryAfter : Option Nat)
      (retryAfterHuman : Option String)
  | locked (message : Option String)
  | generic (message : String) (errors : List (String × List String))
deriving DecidableEq

/-- `handleApiError` (api.js lines 6-33). Every branch begins with
`await response.json()`, which rejects when the body is not parseable JSON;
the function has no try/catch, so that rejection propagates (`Except.error`). -/
def handleApiError (response : Response) : Except Unit ApiErrorResult :=
  if response.status = 429 then
    match response.body with
    | none => .error ()
    | some data =>
        .ok (.rateLimited data.detail data.retry_after data.retry_after_human)
  else if response.status = 423 then
    match response.body with
    | none => .error ()
    | some data => .ok (.locked data.detail)
  else
    match response.body with
    | none => .error ()
    | some data =>
        .ok (.generic (jsOr data.detail "An unexpected error occurred.")
          (data.errors.getD []))

/-- The observable outcome of one `refreshToken` invocation: the returned
value (`none` for JS `null`/`undefined`), the credential store afterwards,
how many times `window.location.href` was set to "/login", and how many
network calls were made. -/
structure RefreshResult where
  ret : Option String
  store : Store
  redirects : Nat
  networkCalls : Nat
deriving DecidableEq

/-- `refreshToken` (api.js lines 36-78), as a function of the store and of the
outcome of the single fetch to the refresh endpoint (`Except.error` = network
failure, i.e. the fetch rejects).

* The guard on line 39 is `if (!refresh_token)`: JS truthiness, so both a
  missing key (`getItem` gives null) and a stored empty string take the
  early return — warn, redirect to login, return null; no fetch.
* Fetch rejects: caught, toast, redirect to login, return null.
* 2xx response: `response.json()` is awaited inside the try, so an
  unparseable body lands in the catch (redirect, null); otherwise both tokens
  are stored (JS coerces an absent field to the text "undefined") and
  `data.access_token` is returned. The store is not touched otherwise.
* Non-2xx response: `handleApiError` runs (its own rejection on an
  unparseable body is also caught by the surrounding try), a toast is shown,
  the page redirects to login and null is returned. The store is NOT cleared
  on this path. -/
def refreshToken (store : Store) (net : Except Unit Response) : RefreshResult :=
  if jsTruthy (getItem store "refresh_token") then
    match net with
    | .error _ => ⟨none, store, 1, 1⟩
    | .ok response =>
      if response.ok then
        match response.body with
        | none => ⟨none, store, 1, 1⟩
        | some data =>
            ⟨data.access_token,
             setItem (setItem store "access_token" (jsString data.access_token))
               "refresh_token" (jsString data.refresh_token),
             0, 1⟩
      else ⟨none, store, 1, 1⟩
  else ⟨none, store, 1, 0⟩

/-- Header maps built by the gateway: keys to string-or-undefined values
(the gateway sets `Content-Type` to `undefined` for FormData bodies). -/
abbrev Headers := List (String × Option String)

/-- Binding `k` to `v` in a JS object literal that already holds the earlier
entries: an existing key keeps its position and gets the new value, a new key
is appended. -/
def objSet : Headers → String → Option String → Headers
  | [], k, v => [(k, v)]
  | (k0, v0) :: rest, k, v =>
      if k0 = k then (k0, v) :: rest else (k0, v0) :: objSet rest k v

/-- Spreading `extra` over `base` in a JS object literal
`\x7b ...base, ...extra \x7d`: entries of `extra` are written left to right,
each overriding any earlier binding of its key. -/
def mergeHeaders (base : Headers) (extra : Headers) : Headers :=
  extra.foldl (fun acc p => objSet acc p.1 p.2) base

/-- Value of a key in a header map (first binding). -/
def lookupHeader : Headers → String → Option (Option String)
  | [], _ => none
  | (k0, v) :: rest, k => if k0 = k then some v else lookupHeader rest k

/-- The binding a JS object literal ends up with for key `k` when its entries
are written in list order: the LAST occurrence wins. -/
def lastBind : Headers → String → Option (Option String)
  | [], _ => none
  | (k0, v0) :: rest, k =>
    match lastBind rest k with
    | some r => some r
    | none => if k0 = k then some v0 else none

/-- The header object built by the gateway's `makeRequest` closure
(api.js lines 85-92): an `Authorization: Bearer <token>` header and a
`Content-Type` header (JSON, or `undefined` when the body is FormData),
then the caller's `options.headers` spread over them. -/
def makeHeaders (optionsHeaders : Headers) (isFormData : Bool)
    (currentAccessToken : Option String) : Headers :=
  mergeHeaders
    [("Authorization", some ("Bearer " ++ jsTemplate currentAccessToken)),
     ("Content-Type", if isFormData then none else some "application/json")]
    optionsHeaders

/-- The environment of one `apiRequest` call: the outcome of the initial
fetch, of the refresh-endpoint fetch (used only if the refresher runs), and
of the retried fetch (used only if a retry is sent). -/
structure GatewayEnv where
  first : Except Unit Response
  refreshNet : Except Unit Response
  retry : Except Unit Response

/-- The observable outcome of one `apiRequest` call: what the caller gets
(`Except.error` = an uncaught fetch rejection propagates), the access token
each sent request was built with (in order), how many times the refresher was
invoked, the store afterwards, and redirects to login performed. -/
structure GatewayResult where
  response : Except Unit Response
  sentTokens : List (Option String)
  refreshCalls : Nat
  store : Store
  redirects : Nat

/-- The synthetic response `apiRequest` fabricates when refresh fails
(api.js line 104): status 401, body with the fixed detail message. -/
def authFailedResponse : Response :=
  ⟨401, some { detail := some "Authentication failed, please log in." }⟩

/-- `apiRequest` (api.js lines 81-109): read the access token, send the
request; on a 401, invoke `refreshToken` once; if it returned a truthy token,
send the request once more with that token and return that response verbatim;
otherwise return the synthetic 401. Any other initial status is returned
as-is; a rejected fetch propagates to the caller. -/
def apiRequest (store : Store) (env : GatewayEnv) : GatewayResult :=
  let token := getItem store "access_token"
  match env.first with
  | .error e => ⟨.error e, [token], 0, store, 0⟩
  | .ok response =>
    if response.status = 401 then
      let r := refreshToken store env.refreshNet
      if jsTruthy r.ret then
        ⟨env.retry, [token, r.ret], 1, r.store, r.redirects⟩
      else
        ⟨.ok authFailedResponse, [token], 1, r.store, r.redirects⟩
    else ⟨.ok response, [token], 0, store, 0⟩

/-- What `login` returns, one constructor per return-object shape:
success with the parsed payload (tokens were stored), the
`\x7b success: false, requires2FA: true \x7d` object, a classified-error
object, or an uncaught rejection propagating to the caller. -/
inductive LoginReturn where
  | ok (data : JsonBody)
  | needs2FA
  | err (e : ApiErrorResult)
  | thrown
deriving DecidableEq

/-- `login` (api.js lines 148-177), as a function of the store and of the
outcome of the single fetch to the login endpoint; returns the JS return
value and the store afterwards.

* Fetch rejects, or a `response.json()` rejects: `login` has no try/catch,
  so the rejection propagates (`thrown`) and the store is untouched.
* 2xx: both tokens from the payload are stored, success returned.
* 400 with a parseable body: line 169 consumes the body. A truthy
  `requires_2fa` returns `\x7b success: false, requires2FA: true \x7d`
  without touching the store; otherwise control falls to line 175, where
  `handleApiError` calls `response.json()` on the already-consumed body,
  which always rejects in the fetch API — so that branch throws.
* Anything else falls through to `handleApiError`. -/
def login (store : Store) (net : Except Unit Response) :
    LoginReturn × Store :=
  match net with
  | .error _ => (.thrown, store)
  | .ok response =>
    if response.ok then
      match response.body with
      | none => (.thrown, store)
      | some data =>
          (.ok data,
           setItem (setItem store "access_token" (jsString data.access_token))
             "refresh_token" (jsString data.refresh_token))
    else if response.status = 400 then
      match response.body with
      | none => (.thrown, store)
      | some error =>
        if error.requires_2fa.getD false then (.needs2FA, store)
        else (.thrown, store)
    else
      match handleApiError response with
      | .ok e => (.err e, store)
      | .error _ => (.thrown, store)

/-- The observable outcome of one `logout` invocation: the store when it
completes and the number of redirects to "/" it performs. -/
structure LogoutResult where
  store : Store
  redirects : Nat

/-- `logout` (api.js lines 179-195), as a function of the store and of the
environment the inner `apiRequest` call runs in. The guard on line 181 is
`if (refresh_token)` — JS truthiness, so the server-side logout call is
attempted only for a stored non-empty token. That call goes through
`apiRequest` inside a try/catch whose catch only logs, so both a failure
response and a thrown fetch fall through; either way both tokens are then
removed and the page redirects home. (`apiRequest` may itself have rewritten
the store via a successful refresh, so removal acts on the store it left
behind.) -/
def logout (store : Store) (env : GatewayEnv) : LogoutResult :=
  if jsTruthy (getItem store "refresh_token") then
    ⟨removeItem (removeItem (apiRequest store env).store "access_token")
       "refresh_token", 1⟩
  else
    ⟨removeItem (removeItem store "access_token") "refresh_token", 1⟩

/-- Whether a refresh-endpoint fetch outcome is a failure in the sense of the
refresher's failure path: the fetch rejected, or the response is non-2xx. -/
def refreshFails : Except Unit Response → Bool
  | .error _ => true
  | .ok r => !r.ok

section StoreLemmas

theorem getItem_removeItem_self (s : Store) (k : String) :
    getItem (removeItem s k) k = none := by
  induction s with
  | nil => rfl
  | cons p rest ih =>
      obtain ⟨k0, v0⟩ := p
      by_cases h : k0 = k <;> simp [removeItem, getItem, h, ih]

theorem getItem_removeItem_ne (s : Store) (k1 k2 : String) (h : ¬ k1 = k2) :
    getItem (removeItem s k1) k2 = getItem s k2 := by
  induction s with
  | nil => rfl
  | cons p rest ih =>
      obtain ⟨k0, v0⟩ := p
      simp only [removeItem]
      by_cases h0 : k0 = k1
      · rw [if_pos h0, ih]
        simp only [getItem]
        rw [if_neg (fun hh => h (h0.symm.trans hh))]
      · rw [if_neg h0]
        simp only [getItem]
        by_cases h2 : k0 = k2 <;> simp [h2, ih]

theorem getItem_clear_access (s : Store) :
    getItem (removeItem (removeItem s "access_token") "refresh_token")
      "access_token" = none := by
  rw [getItem_removeItem_ne _ _ _ (by decide)]
  exact getItem_removeItem_self s "access_token"

theorem getItem_clear_refresh (s : Store) :
    getItem (removeItem (removeItem s "access_token") "refresh_token")
      "refresh_token" = none :=
  getItem_removeItem_self _ "refresh_token"

end StoreLemmas

section HeaderLemmas

theorem lookupHeader_objSet (hs : Headers) (k : String) (v : Option String)
    (k2 : String) :
    lookupHeader (objSet hs k v) k2 =
      if k = k2 then some v else lookupHeader hs k2 := by
  induction hs with
  | nil => simp [objSet, lookupHeader]
  | cons p rest ih =>
      obtain ⟨k0, v0⟩ := p
      by_cases h0 : k0 = k
      · subst h0
        by_cases h2 : k0 = k2 <;> simp [objSet, lookupHeader, h2]
      · by_cases h2 : k0 = k2
        · subst h2
          simp [objSet, lookupHeader, h0]
          rw [if_neg (fun hh => h0 hh.symm)]
        · simp [objSet, lookupHeader, h0, h2, ih]

theorem lookupHeader_mergeHeaders (extra : Headers) (base : Headers)
    (k : String) :
    lookupHeader (mergeHeaders base extra) k =
      match lastBind extra k with
      | some v => some v
      | none => lookupHeader base k := by
  induction extra generalizing base with
  | nil => rfl
  | cons p rest ih =>
      obtain ⟨k0, v0⟩ := p
      have step : mergeHeaders base ((k0, v0) :: rest) =
          mergeHeaders (objSet base k0 v0) rest := rfl
      rw [step, ih]
      cases h : lastBind rest k with
      | some r => simp [lastBind, h]
      | none =>
          by_cases h0 : k0 = k <;>
            simp [lastBind, h, h0, lookupHeader_objSet]

end HeaderLemmas

/-- Claim C2 (code bug): the spec requires that on a non-parseable JSON body
the classifier does not throw and fails over to Generic with a fallback
message; the code's `handleApiError` awaits `response.json()` in every branch
with no try/catch, so the parse rejection propagates to the caller. This
theorem evaluates the embedded code at a failing input: a status-500 response
whose body is not parseable JSON makes `handleApiError` reject rather than
return a Generic classified error. -/
theorem handleApiError_unparseable_body_throws :
    handleApiError ⟨500, none⟩ = .error () := rfl

/-- Claim C5 (confirmed): for a response with a JSON body, statuses are
checked in order with first match winning: 429 yields the rate-limited shape
with message `body.detail` and `retryAfter` exactly `body.retry_after`;
423 yields the locked shape with message `body.detail`, whatever else the
body holds. -/
theorem handleApiError_429_and_423 (resp : Response) (data : JsonBody)
    (hbody : resp.body = some data) :
    (resp.status = 429 → handleApiError resp =
      .ok (.rateLimited data.detail data.retry_after data.retry_after_human)) ∧
    (resp.status = 423 → handleApiError resp = .ok (.locked data.detail)) := by
  constructor <;> intro h <;> simp [handleApiError, h, hbody]

/-- Witness for C5 at a concrete 429 response. -/
theorem handleApiError_429_and_423_witness :
    (⟨429, some { detail := some "Too many requests", retry_after := some 60 }⟩
        : Response).body =
      some { detail := some "Too many requests", retry_after := some 60 } ∧
    handleApiError
        ⟨429, some { detail := some "Too many requests", retry_after := some 60 }⟩ =
      .ok (.rateLimited (some "Too many requests") (some 60) none) :=
  ⟨rfl, (handleApiError_429_and_423 _ _ rfl).1 rfl⟩

/-- Claim C6 counterexample: a body whose `detail` is present but equal to
the empty string. The claim says the message equals `body.detail`, with the
fallback only when `detail` is absent; the code computes
`data.detail || fallback`, and the empty string is falsy in JS, so the
message is the fallback, not the (present) `detail`. -/
theorem handleApiError_empty_detail_gets_fallback :
    handleApiError ⟨500, some { detail := some "" }⟩ =
      .ok (.generic "An unexpected error occurred." []) ∧
    ¬ "An unexpected error occurred." = "" :=
  ⟨rfl, by decide⟩

/-- Claim C6 (corrected): for a response with a JSON body whose status is
neither 429 nor 423, the classifier returns the generic shape whose message
is `body.detail` except that the fallback string is used when `detail` is
absent OR the empty string (JS `||` tests truthiness, not presence), and
which carries the body's `errors` map (the validation case) or the empty map
when `errors` is absent. -/
theorem handleApiError_generic_classification (resp : Response)
    (data : JsonBody) (hbody : resp.body = some data)
    (h429 : ¬ resp.status = 429) (h423 : ¬ resp.status = 423) :
    handleApiError resp =
      .ok (.generic (jsOr data.detail "An unexpected error occurred.")
        (data.errors.getD [])) := by
  simp [handleApiError, h429, h423, hbody]

/-- A concrete 404 body with a detail and a validation-errors map, used to
witness C6. -/
def notFoundBody : JsonBody :=
  { detail := some "Not found", errors := some [("email", ["Invalid email"])] }

/-- Witness for C6 at a concrete 404 response carrying a detail and a
validation-errors map. -/
theorem handleApiError_generic_classification_witness :
    (⟨404, some notFoundBody⟩ : Response).body = some notFoundBody ∧
    ¬ (404 : Nat) = 429 ∧ ¬ (404 : Nat) = 423 ∧
    handleApiError ⟨404, some notFoundBody⟩ =
      .ok (.generic "Not found" [("email", ["Invalid email"])]) :=
  ⟨rfl, by decide, by decide,
    handleApiError_generic_classification ⟨404, some notFoundBody⟩ notFoundBody
      rfl (by decide) (by decide)⟩

/-- Claim C7 (confirmed): when no refresh token is stored, `refreshToken`
returns null immediately, redirects to login exactly once, and makes no
network call; the store is left as it was. -/
theorem refreshToken_no_refresh_token_no_network (store : Store)
    (net : Except Unit Response)
    (h : getItem store "refresh_token" = none) :
    refreshToken store net = ⟨none, store, 1, 0⟩ := by
  unfold refreshToken
  rw [h]
  rfl

/-- Witness for C7 at the empty store. -/
theorem refreshToken_no_refresh_token_no_network_witness :
    getItem [] "refresh_token" = none ∧
    refreshToken [] (.error ()) = ⟨none, [], 1, 0⟩ :=
  ⟨rfl, refreshToken_no_refresh_token_no_network [] (.error ()) rfl⟩

/-- Claim C9 (confirmed): whatever the store holds and however the inner
`apiRequest` call turns out (any response, a synthetic 401 after a failed
refresh, or a thrown fetch — all swallowed by logout's try/catch), by the
time `logout` completes both `access_token` and `refresh_token` are gone
from the store. -/
theorem logout_always_clears_tokens (store : Store) (env : GatewayEnv) :
    getItem (logout store env).store "access_token" = none ∧
    getItem (logout store env).store "refresh_token" = none := by
  unfold logout
  by_cases h : jsTruthy (getItem store "refresh_token") = true
  · rw [if_pos h]
    exact ⟨getItem_clear_access _, getItem_clear_refresh _⟩
  · rw [if_neg h]
    exact ⟨getItem_clear_access _, getItem_clear_refresh _⟩

/-- Claim C10 (confirmed): in the header object built by the gateway's
`makeRequest`, the caller's `options.headers` are spread last, so any key the
caller supplies — in particular `Authorization` and `Content-Type` — ends up
with the caller's value, overriding the gateway's bearer token and its
JSON/FormData content-type choice. -/
theorem makeHeaders_caller_override (opts : Headers) (isFormData : Bool)
    (tok : Option String) (k : String) (v : Option String)
    (h : lastBind opts k = some v) :
    lookupHeader (makeHeaders opts isFormData tok) k = some v := by
  unfold makeHeaders
  rw [lookupHeader_mergeHeaders, h]

/-- Witness for C10: a caller-supplied Authorization header wins over the
bearer token the gateway read from the store. -/
theorem makeHeaders_caller_override_witness :
    lastBind [("Authorization", some "Bearer caller")] "Authorization" =
      some (some "Bearer caller") ∧
    lookupHeader
        (makeHeaders [("Authorization", some "Bearer caller")] false
          (some "stored-token"))
        "Authorization" = some (some "Bearer caller") :=
  ⟨rfl, makeHeaders_caller_override _ false (some "stored-token") _ _ rfl⟩

/-- A store holding both tokens, used for the refresher and gateway claims. -/
def bothTokensStore : Store := [("access_token", "a"), ("refresh_token", "r")]

/-- Claim C1 counterexample: with both tokens stored and the refresh endpoint
answering 500 (a JSON body with a detail), `refreshToken` does return failure,
but the store still holds the refresh token afterwards — the failure path
never calls `localStorage.removeItem`, so the Credential Store does not end
up empty as the claim states. -/
theorem refreshToken_failure_store_not_cleared :
    (refreshToken bothTokensStore
        (.ok ⟨500, some { detail := some "Token is invalid or expired" }⟩)).ret
      = none ∧
    ¬ getItem
        (refreshToken bothTokensStore
          (.ok ⟨500, some { detail := some "Token is invalid or expired" }⟩)).store
        "refresh_token" = none := by
  exact ⟨rfl, by decide⟩

/-- Claim C1 (corrected): on any invocation of `refreshToken` with a refresh
token present — a stored value the guard `if (!refresh_token)` on line 39
accepts, i.e. a non-empty string — whose endpoint call fails (the fetch
rejects, or the response is non-2xx), the refresher returns failure (null)
and sets `window.location.href` to "/login" exactly once, but it leaves the
Credential Store exactly as it was — it does not clear the tokens. Exactly
one network call is made. -/
theorem refreshToken_failure_redirects_keeps_store (store : Store)
    (net : Except Unit Response)
    (hrt : jsTruthy (getItem store "refresh_token") = true)
    (hfail : refreshFails net = true) :
    refreshToken store net = ⟨none, store, 1, 1⟩ := by
  unfold refreshToken
  rw [hrt]
  cases net with
  | error e => rfl
  | ok r =>
      have hok : r.ok = false := by
        simpa [refreshFails] using hfail
      simp [hok]

/-- Witness for the corrected C1 at a concrete failing refresh call. -/
theorem refreshToken_failure_redirects_keeps_store_witness :
    jsTruthy (getItem bothTokensStore "refresh_token") = true ∧
    refreshFails (.ok ⟨500, some { detail := some "boom" }⟩) = true ∧
    refreshToken bothTokensStore (.ok ⟨500, some { detail := some "boom" }⟩) =
      ⟨none, bothTokensStore, 1, 1⟩ :=
  ⟨rfl, rfl,
    refreshToken_failure_redirects_keeps_store bothTokensStore
      (.ok ⟨500, some { detail := some "boom" }⟩) rfl rfl⟩

/-- Claim C3 (confirmed): when the initial response is a 401 and the
refresher hands back a token the gateway accepts (non-null — the code tests
JS truthiness, so also non-empty), the gateway sends exactly one retried
request built with the new token and returns whatever that retry produced,
verbatim, regardless of its status. Exactly two requests are built in total
(the original once, the retry once), the refresher runs exactly once, and
there is no loop. -/
theorem apiRequest_401_refresh_success_single_retry (store : Store)
    (env : GatewayEnv) (resp : Response) (newTok : String)
    (hfirst : env.first = .ok resp) (h401 : resp.status = 401)
    (hrefresh : (refreshToken store env.refreshNet).ret = some newTok)
    (hne : ¬ newTok = "") :
    apiRequest store env =
      ⟨env.retry, [getItem store "access_token", some newTok], 1,
       (refreshToken store env.refreshNet).store,
       (refreshToken store env.refreshNet).redirects⟩ := by
  unfold apiRequest
  rw [hfirst]
  simp [h401, hrefresh, jsTruthy, hne]

/-- A gateway environment for the C3 witness: the initial call answers 401,
the refresh endpoint rotates the pair, and the retry answers 204. -/
def refreshOkEnv : GatewayEnv :=
  ⟨.ok ⟨401, some {}⟩,
   .ok ⟨200, some { access_token := some "new", refresh_token := some "r2" }⟩,
   .ok ⟨204, some {}⟩⟩

/-- Witness for C3 at a concrete 401-then-successful-refresh run. -/
theorem apiRequest_401_refresh_success_single_retry_witness :
    refreshOkEnv.first = .ok ⟨401, some {}⟩ ∧
    (refreshToken bothTokensStore refreshOkEnv.refreshNet).ret = some "new" ∧
    apiRequest bothTokensStore refreshOkEnv =
      ⟨refreshOkEnv.retry, [some "a", some "new"], 1,
       (refreshToken bothTokensStore refreshOkEnv.refreshNet).store,
       (refreshToken bothTokensStore refreshOkEnv.refreshNet).redirects⟩ :=
  ⟨rfl, rfl,
    apiRequest_401_refresh_success_single_retry bothTokensStore refreshOkEnv
      ⟨401, some {}⟩ "new" rfl rfl rfl (by decide)⟩

/-- Claim C4 (confirmed): when the initial response is a 401 and the
refresher returns null, the gateway builds no retry (only the original
request was sent) and hands the caller the synthetic response of line 104:
status 401 with the fixed authentication-failed detail. -/
theorem apiRequest_401_refresh_failure_synthesizes_401 (store : Store)
    (env : GatewayEnv) (resp : Response)
    (hfirst : env.first = .ok resp) (h401 : resp.status = 401)
    (hrefresh : (refreshToken store env.refreshNet).ret = none) :
    apiRequest store env =
      ⟨.ok authFailedResponse, [getItem store "access_token"], 1,
       (refreshToken store env.refreshNet).store,
       (refreshToken store env.refreshNet).redirects⟩ ∧
    authFailedResponse.status = 401 ∧
    authFailedResponse.body =
      some { detail := some "Authentication failed, please log in." } := by
  refine ⟨?_, rfl, rfl⟩
  unfold apiRequest
  rw [hfirst]
  simp [h401, hrefresh, jsTruthy]

/-- A gateway environment for the C4 witness: the initial call answers 401
and the refresh endpoint answers 500, so the refresher fails. -/
def refreshFailEnv : GatewayEnv :=
  ⟨.ok ⟨401, some {}⟩, .ok ⟨500, some {}⟩, .ok ⟨204, some {}⟩⟩

/-- Witness for C4 at a concrete 401-then-failed-refresh run. -/
theorem apiRequest_401_refresh_failure_synthesizes_401_witness :
    refreshFailEnv.first = .ok ⟨401, some {}⟩ ∧
    (refreshToken bothTokensStore refreshFailEnv.refreshNet).ret = none ∧
    (apiRequest bothTokensStore refreshFailEnv =
      ⟨.ok authFailedResponse, [some "a"], 1,
       (refreshToken bothTokensStore refreshFailEnv.refreshNet).store,
       (refreshToken bothTokensStore refreshFailEnv.refreshNet).redirects⟩ ∧
     authFailedResponse.status = 401 ∧
     authFailedResponse.body =
       some { detail := some "Authentication failed, please log in." }) :=
  ⟨rfl, rfl,
    apiRequest_401_refresh_failure_synthesizes_401 bothTokensStore
      refreshFailEnv ⟨401, some {}⟩ rfl rfl rfl⟩

/-- Claim C8 (confirmed): a login call answered with status 400 and a body
whose `requires_2fa` is true returns the requires-2FA result and leaves the
store exactly as it was — no token is written. -/
theorem login_400_requires2fa_no_tokens_stored (store : Store)
    (net : Except Unit Response) (resp : Response) (data : JsonBody)
    (hnet : net = .ok resp) (hstatus : resp.status = 400)
    (hbody : resp.body = some data) (h2fa : data.requires_2fa = some true) :
    login store net = (.needs2FA, store) := by
  subst hnet
  have hok : resp.ok = false := by
    simp [Response.ok, hstatus]
  unfold login
  simp [hok, hstatus, hbody, h2fa]

/-- Witness for C8 at a concrete 2FA-required login response. -/
theorem login_400_requires2fa_no_tokens_stored_witness :
    ((⟨400, some { requires_2fa := some true }⟩ : Response)).status = 400 ∧
    login [("theme", "dark")]
        (.ok ⟨400, some { requires_2fa := some true }⟩) =
      (.needs2FA, [("theme", "dark")]) :=
  ⟨rfl,
    login_400_requires2fa_no_tokens_stored [("theme", "dark")]
      (.ok ⟨400, some { requires_2fa := some true }⟩)
      ⟨400, some { requires_2fa := some true }⟩
      { requires_2fa := some true } rfl rfl rfl rfl⟩
